import Mathlib

/-!
Shallow embedding of the gorouter request-pipeline core (repository
mdimiceli/gorouter) in Lean 4, together with theorems settling the frozen
claims about it.

Embedding conventions:
* Go `time.Duration` is `Int` (nanoseconds); `time.Time` is `Nat`
  (nanoseconds since the epoch, with `0` standing for the zero `time.Time`).
* Go maps `http.Header` become association lists whose keys are stored in
  canonical MIME form, exactly as `net/http` stores them; the canonicalisation
  function is modelled after `textproto.CanonicalMIMEHeaderKey`.
* Go panics (`logger.Panic`) become `Except PanicErr`.
* Pointer-valued configuration (`*tls.Config`) becomes `Option TLSConfig`
  with an opaque body, since the code only passes these values around.
-/

namespace Gorouter

/-- Go `time.Duration`: a count of nanoseconds. -/
abbrev Duration := Int

/-- One second, in nanoseconds (`time.Second`). -/
def second : Duration := 1000000000

/-- Health states of the `common/health` package. Modelled from the spec:
the health package is not under src/; the spec (§2 C2, §4.2, §6.4) names the
states *Healthy* and *Degraded*. -/
inductive HealthStatus
  | healthy
  | degraded
  deriving DecidableEq, Repr

/- ## Header model (net/http `http.Header` over textproto canonical keys) -/

/-- `http.Header`: keys are kept in canonical MIME form, each with its list
of values. (Go stores this as a map; an association list with unique keys
models it; all operations below look at the first matching entry.) -/
abbrev Header := List (String × List String)

/-- A byte is a valid header-field byte (Go `validHeaderFieldByte`):
alphanumeric or one of the token characters. -/
def validHeaderFieldChar (c : Char) : Bool :=
  c.isAlphanum || c == Char.ofNat 33 || c == Char.ofNat 35 || c == Char.ofNat 36 ||
  c == Char.ofNat 37 || c == Char.ofNat 38 || c == Char.ofNat 39 || c == Char.ofNat 42 ||
  c == Char.ofNat 43 || c == Char.ofNat 45 || c == Char.ofNat 46 || c == Char.ofNat 94 ||
  c == Char.ofNat 95 || c == Char.ofNat 96 || c == Char.ofNat 124 || c == Char.ofNat 126

/-- The case-folding loop of `textproto.CanonicalMIMEHeaderKey`: uppercase
the first letter and every letter following a dash, lowercase the rest. -/
def canonLoop : List Char → Bool → List Char
  | [], _ => []
  | c :: rest, upper =>
    let c2 := if upper then c.toUpper else c.toLower
    c2 :: canonLoop rest (c2 == Char.ofNat 45)

/-- `textproto.CanonicalMIMEHeaderKey` / `http.CanonicalHeaderKey`: canonical
form when every byte is a valid header-field byte, the string unchanged
otherwise. -/
def canonicalMIMEHeaderKey (s : String) : String :=
  if s.toList.all validHeaderFieldChar then String.mk (canonLoop s.toList true)
  else s

/-- Look a canonical key up in a header (Go map indexing `h[ck]`). -/
def headerLookup (h : Header) (ck : String) : Option (List String) :=
  match h with
  | [] => none
  | p :: t => if p.1 = ck then some p.2 else headerLookup t ck

/-- Remove a canonical key from a header (the effect of `delete(h, ck)`). -/
def headerDelCanon (h : Header) (ck : String) : Header :=
  match h with
  | [] => []
  | p :: t => if p.1 = ck then headerDelCanon t ck else p :: headerDelCanon t ck

/-- Store `[value]` under a canonical key (the effect of `h[ck] = {value}`;
map order is immaterial, the entry is re-added at the end). -/
def headerSetCanon (h : Header) (ck value : String) : Header :=
  headerDelCanon h ck ++ [(ck, [value])]

/-- `http.Header.Set`: canonicalise the key, replace the value slice. -/
def headerSet (h : Header) (key value : String) : Header :=
  headerSetCanon h (canonicalMIMEHeaderKey key) value

/-- `http.Header.Del`: canonicalise the key, remove the entry. -/
def headerDel (h : Header) (key : String) : Header :=
  headerDelCanon h (canonicalMIMEHeaderKey key)

/-- `http.Header.Get`: first value stored under the canonical key, `""` when
the key is absent. -/
def headerGet (h : Header) (key : String) : String :=
  match headerLookup h (canonicalMIMEHeaderKey key) with
  | some (v :: _) => v
  | _ => ""

/- ## Requests and URLs -/

/-- The `net/url.URL` fields the proxy director touches. -/
structure URL where
  Scheme : String
  Opaque : String
  Host : String
  Path : String
  RawQuery : String
  ForceQuery : Bool
  deriving DecidableEq, Repr

/-- Opaque stand-in for `crypto/tls.ConnectionState`; the code only compares
the `req.TLS` pointer against nil. -/
structure TLSConnectionState where
  handshakeComplete : Bool
  deriving DecidableEq, Repr

/-- The `http.Request` fields the modelled handlers touch. -/
structure Request where
  Host : String
  RequestURI : String
  Header : Header
  URL : URL
  TLS : Option TLSConnectionState
  Close : Bool
  deriving DecidableEq, Repr

/-- Opaque stand-in for a backend pool (`route.EndpointPool`); the modelled
code only compares it against nil. -/
structure Pool where
  poolId : Nat
  deriving DecidableEq, Repr

/-- Opaque stand-in for a backend endpoint (`route.Endpoint`); the modelled
code only compares it against nil and passes it to the metrics reporter. -/
structure Endpoint where
  endpointId : Nat
  deriving DecidableEq, Repr

/-- The `handlers.RequestInfo` fields the modelled handlers touch.
Times are `Nat` nanoseconds, `0` standing for the zero `time.Time`. -/
structure RequestInfo where
  RoutePool : Option Pool
  RouteEndpoint : Option Endpoint
  ReceivedAt : Nat
  AppRequestStartedAt : Nat
  AppRequestFinishedAt : Nat
  BackendReqHeaders : Header
  deriving DecidableEq, Repr

/-- The panics the modelled handlers can raise via `logger.Panic`. -/
inductive PanicErr
  | requestInfoErr
  | routePoolErr
  deriving DecidableEq, Repr

/- ## SkipSanitize (src/proxy/proxy.go lines 197-201) -/

/-- `proxy.SkipSanitize`: the route-service validator interface is modelled
by the one method the closure calls, `IsRouteServiceTraffic`. -/
def SkipSanitize (isRouteServiceTraffic : Request → Bool) : Request → Bool :=
  fun req => isRouteServiceTraffic req && req.TLS.isSome

/- ## Healthcheck handler (src/handlers/healthcheck.go lines 22-36) -/

/-- The response state a handler builds up: headers, the status passed to
`WriteHeader`, and the accumulated body bytes. -/
structure ResponseState where
  headers : Header
  status : Option Nat
  body : String
  deriving DecidableEq, Repr

/-- `healthcheck.ServeHTTP`: sets the two cache headers, then answers 503
and marks the connection for close when health is not Healthy, else answers
200 with body "ok\n" and also marks the connection for close. -/
def healthcheckServeHTTP (hs : HealthStatus) (rw : ResponseState) (r : Request) :
    ResponseState × Request :=
  let rw1 := { rw with
    headers := headerSet (headerSet rw.headers "Cache-Control" "private, max-age=0")
      "Expires" "0" }
  if hs ≠ HealthStatus.healthy then
    ({ rw1 with status := some 503 }, { r with Close := true })
  else
    ({ rw1 with status := some 200, body := rw1.body ++ "ok\n" }, { r with Close := true })

/- ## Byte-level URL escaping (net/url), as used by the director -/

/-- UTF-8 bytes of a Unicode code point (Go strings are byte strings; the
escape functions below work byte by byte). -/
def utf8Bytes (n : Nat) : List Nat :=
  if n < 128 then [n]
  else if n < 2048 then [192 + n / 64, 128 + n % 64]
  else if n < 65536 then [224 + n / 4096, 128 + (n / 64) % 64, 128 + n % 64]
  else [240 + n / 262144, 128 + (n / 4096) % 64, 128 + (n / 64) % 64, 128 + n % 64]

/-- The UTF-8 bytes of a Lean string, i.e. the Go byte string it denotes. -/
def strToBytes (s : String) : List Nat :=
  s.toList.foldr (fun c acc => utf8Bytes c.toNat ++ acc) []

/-- Uppercase hex digit, as used by `url.escape`. -/
def upperHexDigit (n : Nat) : Char :=
  if n < 10 then Char.ofNat (48 + n) else Char.ofNat (55 + n)

/-- `%XX` percent-encoding of one byte, as characters. -/
def pctChars (b : Nat) : List Char :=
  [Char.ofNat 37, upperHexDigit (b / 16), upperHexDigit (b % 16)]

/-- `%XX` percent-encoding of one byte, as bytes. -/
def pctBytes (b : Nat) : List Nat :=
  (pctChars b).map Char.toNat

/-- Is the byte an ASCII letter or digit? (Go `shouldEscape` first test.) -/
def isAlphanumByte (b : Nat) : Bool :=
  (48 ≤ b && b ≤ 57) || (65 ≤ b && b ≤ 90) || (97 ≤ b && b ≤ 122)

/-- Go `url.shouldEscape c encodePathSegment`: keep alphanumerics, the
unreserved marks `-`, `_`, `.`, `~`, and of the sub-delims keep
`$ & + : = @`, escaping `/ ; , ?` and everything else. -/
def shouldEscapePathSegmentByte (b : Nat) : Bool :=
  if isAlphanumByte b then false
  else if b == 45 || b == 95 || b == 46 || b == 126 then false
  else if b == 36 || b == 38 || b == 43 || b == 58 || b == 61 || b == 64 then false
  else true

/-- Go `url.shouldEscape c encodeQueryComponent`: keep only alphanumerics
and the unreserved marks; space is handled separately (`+`). -/
def shouldEscapeQueryByte (b : Nat) : Bool :=
  if isAlphanumByte b then false
  else if b == 45 || b == 95 || b == 46 || b == 126 then false
  else true

/-- `url.PathEscape` on one character: kept verbatim when its (single) byte
is unescaped, otherwise each UTF-8 byte is percent-encoded. -/
def pathEscapeChar (c : Char) : List Char :=
  if c.toNat < 128 && !shouldEscapePathSegmentByte c.toNat then [c]
  else (utf8Bytes c.toNat).foldr (fun b acc => pctChars b ++ acc) []

/-- `url.PathEscape`: percent-encode a string as a path segment. -/
def pathEscape (s : String) : String :=
  String.mk (s.toList.foldr (fun c acc => pathEscapeChar c ++ acc) [])

/- ## Query parsing and re-encoding (net/url `ParseQuery` / `Values.Encode`) -/

/-- Hex digit value of a byte, `none` for a non-hex byte (`url.unhex`). -/
def hexVal (b : Nat) : Option Nat :=
  if 48 ≤ b && b ≤ 57 then some (b - 48)
  else if 65 ≤ b && b ≤ 70 then some (b - 55)
  else if 97 ≤ b && b ≤ 102 then some (b - 87)
  else none

/-- `url.QueryUnescape` on bytes: decode `%XX`, map `+` to space, fail on a
malformed percent escape. -/
def queryUnescapeBytes : List Nat → Option (List Nat)
  | [] => some []
  | 37 :: h :: l :: rest =>
    match hexVal h, hexVal l, queryUnescapeBytes rest with
    | some hv, some lv, some tail => some ((16 * hv + lv) :: tail)
    | _, _, _ => none
  | 37 :: _ => none
  | 43 :: rest => (queryUnescapeBytes rest).map (fun t => 32 :: t)
  | b :: rest => (queryUnescapeBytes rest).map (fun t => b :: t)

/-- `strings.Cut` at the first occurrence of a byte: `(before, after)`,
`after = []` when the byte is absent (the found flag is unused by callers). -/
def cutByte (sep : Nat) : List Nat → List Nat × List Nat
  | [] => ([], [])
  | b :: rest =>
    if b = sep then ([], rest)
    else
      let p := cutByte sep rest
      (b :: p.1, p.2)

/-- `url.Values` over byte strings: keys with their value lists, keys unique,
in first-appearance order (the Go map itself is unordered; `Encode` sorts). -/
abbrev ValuesB := List (List Nat × List (List Nat))

/-- `m[key] = append(m[key], value)` on `ValuesB`. -/
def valuesAdd (m : ValuesB) (k v : List Nat) : ValuesB :=
  if m.any (fun p => p.1 = k) then
    m.map (fun p => if p.1 = k then (p.1, p.2 ++ [v]) else p)
  else m ++ [(k, [v])]

/-- Structural split of a byte list at a separator byte (what the
`strings.Cut`-on-`&` loop of `ParseQuery` amounts to). -/
def splitBytesAux (sep : Nat) : List Nat → List Nat → List (List Nat)
  | [], acc => [acc.reverse]
  | b :: rest, acc =>
    if b = sep then acc.reverse :: splitBytesAux sep rest []
    else splitBytesAux sep rest (b :: acc)

/-- `url.ParseQuery` (with the error discarded, as `URL.Query` does): split
on `&`, skip components containing `;` and empty components, cut each at the
first `=`, query-unescape key and value, skip the pair when either fails. -/
def parseQueryBytes (query : List Nat) : ValuesB :=
  (splitBytesAux 38 query []).foldl
    (fun m comp =>
      if comp.contains 59 then m
      else if comp = [] then m
      else
        let kv := cutByte 61 comp
        match queryUnescapeBytes kv.1, queryUnescapeBytes kv.2 with
        | some k2, some v2 => valuesAdd m k2 v2
        | _, _ => m)
    []

/-- `url.QueryEscape` on bytes: space to `+`, unreserved bytes verbatim,
everything else percent-encoded. -/
def queryEscapeBytes (l : List Nat) : List Nat :=
  l.foldr
    (fun b acc =>
      (if b = 32 then [43]
       else if shouldEscapeQueryByte b then pctBytes b
       else [b]) ++ acc)
    []

/-- Byte-wise lexicographic order on byte strings (what `sort.Strings`
uses on Go strings). -/
def bytesLT : List Nat → List Nat → Bool
  | [], [] => false
  | [], _ :: _ => true
  | _ :: _, [] => false
  | a :: as, b :: bs => if a < b then true else if b < a then false else bytesLT as bs

/-- Insert one entry into a key-sorted `ValuesB`. -/
def insertSorted (x : List Nat × List (List Nat)) : ValuesB → ValuesB
  | [] => [x]
  | y :: ys => if bytesLT x.1 y.1 then x :: y :: ys else y :: insertSorted x ys

/-- Sort a `ValuesB` by key (`Encode` sorts the map's keys). -/
def sortValues (m : ValuesB) : ValuesB :=
  m.foldl (fun acc p => insertSorted p acc) []

/-- `url.Values.Encode`: keys in sorted order, each value in order, pieces
`escape(k)=escape(v)` joined by `&`. -/
def valuesEncodeBytes (m : ValuesB) : List Nat :=
  (sortValues m).foldl
    (fun acc p =>
      p.2.foldl
        (fun acc2 v =>
          let piece := queryEscapeBytes p.1 ++ [61] ++ queryEscapeBytes v
          if acc2 = [] then piece else acc2 ++ [38] ++ piece)
        acc)
    []

/-- Decode an ASCII byte string back into a Lean string (the encoder output
is all ASCII). -/
def asciiBytesToString (l : List Nat) : String :=
  String.mk (l.map Char.ofNat)

/-- Structural split of a character list at a separator character
(`strings.Split` for a one-character separator; `[""]` on empty input). -/
def splitOnCharAux (sep : Char) : List Char → List Char → List (List Char)
  | [], acc => [acc.reverse]
  | c :: rest, acc =>
    if c = sep then acc.reverse :: splitOnCharAux sep rest []
    else splitOnCharAux sep rest (c :: acc)

/-- `strings.Split(s, "/")`. -/
def goSplitSlash (s : String) : List String :=
  (splitOnCharAux (Char.ofNat 47) s.toList []).map String.mk

/-- `strings.HasPrefix(s, "//")`. -/
def startsWithSlashSlash (s : String) : Bool :=
  match s.toList with
  | c1 :: c2 :: _ => c1 = Char.ofNat 47 && c2 = Char.ofNat 47
  | _ => false

/- ## The proxy director (src/proxy/proxy.go lines 240-283) -/

/-- `strings.TrimSuffix(s, "/")`: drop one trailing slash if present. -/
def goTrimOneTrailingSlash (s : String) : String :=
  match s.toList.getLast? with
  | some c => if c = Char.ofNat 47 then String.mk s.toList.dropLast else s
  | none => s

/-- `proxy.escapePathAndPreserveSlashes` (lines 273-283): split on `/`,
path-escape each segment, re-join with `/` (append a slash per segment and
trim the final one), so existing slashes — including doubled ones — survive. -/
def escapePathAndPreserveSlashes (unescaped : String) : String :=
  let parts := goSplitSlash unescaped
  let escapedPath := parts.foldl (fun acc part => acc ++ pathEscape part ++ "/") ""
  goTrimOneTrailingSlash escapedPath

/-- `proxy.setRequestXRequestStart` (lines 267-271): when no entry is stored
under the canonical "X-Request-Start" key, set it to the current unix time
in milliseconds (`time.Now().UnixNano()/1e6`, truncating division); an
existing entry is left untouched. `nowUnixNano` is the ambient clock. -/
def setRequestXRequestStart (nowUnixNano : Int) (request : Request) : Request :=
  match headerLookup request.Header (canonicalMIMEHeaderKey "X-Request-Start") with
  | some _ => request
  | none =>
    { request with
      Header := headerSet request.Header "X-Request-Start"
        (toString (Int.tdiv nowUnixNano 1000000)) }

/-- Modelled from the spec: the constant `router_http.CfAppInstance`
(package common/http) is not under src/; §6.3 of the spec names the header
`X-CF-App-Instance`. -/
def CfAppInstance : String := "X-CF-App-Instance"

/-- The body of `proxy.setupProxyRequest` (lines 246-265), after RequestInfo
has been fetched: rewrite the URL to scheme "http" with `Opaque` carrying
the raw request line (for a `//`-prefixed RequestURI, `//host` plus the
segment-wise re-escaped path plus the re-encoded query), clear `RawQuery`,
stamp X-Request-Start, and delete X-CF-App-Instance. In Go
`reqInfo.BackendReqHeaders = target.Header` stores a reference to the same
map that the later header writes mutate; the value model therefore records
the final header state. -/
def setupProxyRequestCore (nowUnixNano : Int) (reqInfo : RequestInfo) (target : Request) :
    RequestInfo × Request :=
  let url0 := { target.URL with
    Scheme := "http", Host := target.Host, ForceQuery := false,
    Opaque := target.RequestURI }
  let url1 :=
    if startsWithSlashSlash target.RequestURI then
      let path := escapePathAndPreserveSlashes target.URL.Path
      let opq := "//" ++ target.Host ++ path
      let q := parseQueryBytes (strToBytes target.URL.RawQuery)
      if 0 < q.length then
        { url0 with Opaque := opq ++ "?" ++ asciiBytesToString (valuesEncodeBytes q) }
      else { url0 with Opaque := opq }
    else url0
  let url2 := { url1 with RawQuery := "" }
  let t1 := { target with URL := url2 }
  let t2 := setRequestXRequestStart nowUnixNano t1
  let t3 := { t2 with Header := headerDel t2.Header CfAppInstance }
  ({ reqInfo with BackendReqHeaders := t3.Header }, t3)

/-- `proxy.setupProxyRequest` (lines 240-265): panics (`logger.Panic`) when
the request carries no RequestInfo, otherwise runs the director body. -/
def setupProxyRequest (nowUnixNano : Int) (reqInfo : Option RequestInfo) (target : Request) :
    Except PanicErr (RequestInfo × Request) :=
  match reqInfo with
  | none => Except.error PanicErr.requestInfoErr
  | some ri => Except.ok (setupProxyRequestCore nowUnixNano ri target)

/- ## proxy.ServeHTTP, the final pipeline stage (lines 213-238) -/

/-- `proxy.ServeHTTP` (lines 213-238): panics when RequestInfo is missing or
its RoutePool is nil; otherwise stamps `AppRequestStartedAt`, calls `next`,
and stamps `AppRequestFinishedAt`. The clock is explicit: `t0` is the time
at entry, and `next` returns the time at which it finishes alongside the
RequestInfo it may have mutated. (The `EnableHTTP1ConcurrentReadWrite`
full-duplex toggle is an I/O-level concern outside the value model.) -/
def proxyServeHTTP (reqInfo : Option RequestInfo) (t0 : Nat)
    (next : RequestInfo → Nat → RequestInfo × Nat) : Except PanicErr (RequestInfo × Nat) :=
  match reqInfo with
  | none => Except.error PanicErr.requestInfoErr
  | some ri =>
    match ri.RoutePool with
    | none => Except.error PanicErr.routePoolErr
    | some _ =>
      let ri1 := { ri with AppRequestStartedAt := t0 }
      let p := next ri1 t0
      Except.ok ({ p.1 with AppRequestFinishedAt := p.2 }, p.2)

/- ## Transport templates of the round-tripper factory (lines 81-109) -/

/-- Opaque stand-in for `*tls.Config`; `NewProxy` only stores the two
pointers it receives into the two templates. -/
structure TLSConfig where
  configId : Nat
  deriving DecidableEq, Repr

/-- The `config.Config` fields read by `NewProxy` when building the two
transport templates. -/
structure Config where
  EndpointDialTimeout : Duration
  EndpointKeepAliveProbeInterval : Duration
  DisableKeepAlives : Bool
  MaxIdleConns : Int
  MaxIdleConnsPerHost : Int
  TLSHandshakeTimeout : Duration
  SendHttpStartStopClientEvent : Bool
  deriving DecidableEq, Repr

/-- `net.Dialer` as configured by `NewProxy` (lines 81-84). -/
structure Dialer where
  Timeout : Duration
  KeepAlive : Duration
  deriving DecidableEq, Repr

/-- The `http.Transport` fields set by either template literal. Defaults are
the Go zero values, so a field a composite literal omits keeps its zero
value, exactly as in Go. `DialContext` is identified by the dialer whose
method it is. -/
structure Transport where
  DialContext : Option Dialer := none
  DisableKeepAlives : Bool := false
  MaxIdleConns : Int := 0
  IdleConnTimeout : Duration := 0
  MaxIdleConnsPerHost : Int := 0
  DisableCompression : Bool := false
  TLSClientConfig : Option TLSConfig := none
  TLSHandshakeTimeout : Duration := 0
  ExpectContinueTimeout : Duration := 0
  deriving DecidableEq, Repr

/-- `round_tripper.FactoryImpl` as filled in by `NewProxy`. -/
structure FactoryImpl where
  BackendTemplate : Transport
  RouteServiceTemplate : Transport
  IsInstrumented : Bool
  deriving DecidableEq, Repr

/-- The factory literal of `NewProxy` (src/proxy/proxy.go lines 86-109),
with the dialer of lines 81-84. Note the route-service template literal
omits `TLSHandshakeTimeout`, leaving it at the zero value. -/
def newProxyRoundTripperFactory (cfg : Config)
    (backendTLSConfig routeServiceTLSConfig : Option TLSConfig) : FactoryImpl :=
  let dialer : Dialer :=
    { Timeout := cfg.EndpointDialTimeout, KeepAlive := cfg.EndpointKeepAliveProbeInterval }
  { BackendTemplate :=
      { DialContext := some dialer
        DisableKeepAlives := cfg.DisableKeepAlives
        MaxIdleConns := cfg.MaxIdleConns
        IdleConnTimeout := 90 * second
        MaxIdleConnsPerHost := cfg.MaxIdleConnsPerHost
        DisableCompression := true
        TLSClientConfig := backendTLSConfig
        TLSHandshakeTimeout := cfg.TLSHandshakeTimeout
        ExpectContinueTimeout := 1 * second }
    RouteServiceTemplate :=
      { DialContext := some dialer
        DisableKeepAlives := cfg.DisableKeepAlives
        MaxIdleConns := cfg.MaxIdleConns
        IdleConnTimeout := 90 * second
        MaxIdleConnsPerHost := cfg.MaxIdleConnsPerHost
        DisableCompression := true
        TLSClientConfig := routeServiceTLSConfig
        ExpectContinueTimeout := 1 * second }
    IsInstrumented := cfg.SendHttpStartStopClientEvent }

/- ## Panic guard: `panicCheck.ServeHTTP`
   (src/fakes/round_tripper.go lines 161-211, concatenated segment of
   package handlers; mounted at src/proxy/proxy.go line 144) -/

/-- A Go panic value as seen by the guard's `recover()`: the sentinel
`http.ErrAbortHandler`, or any other value (the default branch converts it
to an error via `fmt.Errorf` for logging only). -/
inductive PanicValue
  | errAbortHandler
  | otherValue (description : String)
  deriving DecidableEq, Repr

/-- What the downstream chain (`next(rw, r)`) did: returned normally, or
panicked with a value. -/
inductive PanicOutcome
  | noPanic
  | panicWith (v : PanicValue)
  deriving DecidableEq, Repr

/-- The guard's control-flow result: the chain completed, the panic was
re-raised (`panic(http.ErrAbortHandler)`), or it was recovered. -/
inductive GuardOutcome
  | completed
  | repanicked (v : PanicValue)
  | recovered
  deriving DecidableEq, Repr

/-- `panicCheck.ServeHTTP` (src/fakes/round_tripper.go lines 186-211): the
deferred `recover()` runs once `next` has returned or panicked; `rw` and `r`
are the writer and request as they stand at that point. No panic: nothing
happens. `http.ErrAbortHandler`: the sentinel is re-raised by
`panic(http.ErrAbortHandler)`. Any other value: log with stack,
`health.SetHealth(health.Degraded)`, `rw.WriteHeader(503)`, `r.Close = true`. -/
def panicCheckServeHTTP (hs : HealthStatus) (rw : ResponseState) (r : Request)
    (downstream : PanicOutcome) :
    GuardOutcome × HealthStatus × ResponseState × Request :=
  match downstream with
  | PanicOutcome.noPanic => (GuardOutcome.completed, hs, rw, r)
  | PanicOutcome.panicWith PanicValue.errAbortHandler =>
    (GuardOutcome.repanicked PanicValue.errAbortHandler, hs, rw, r)
  | PanicOutcome.panicWith _ =>
    (GuardOutcome.recovered, HealthStatus.degraded,
      { rw with status := some 503 }, { r with Close := true })

/- ## Reporter handler (src/handlers/reporter.go lines 30-59) -/

/-- The metric captures the reporter handler can emit, in order. -/
inductive MetricEvent
  | missingContentLength
  | routingResponse (status : Nat)
  | routingResponseLatency (ep : Endpoint) (status : Nat) (receivedAt : Nat) (latency : Int)
  deriving DecidableEq, Repr

/-- Is the event one of the two response metrics? -/
def isRoutingResponseEvent : MetricEvent → Bool
  | MetricEvent.routingResponse _ => true
  | _ => false

/-- Is the event the response-latency metric? -/
def isLatencyEvent : MetricEvent → Bool
  | MetricEvent.routingResponseLatency _ _ _ _ => true
  | _ => false

/-- The post-`next` tail of `reporterHandler.ServeHTTP` (lines 45-58):
nothing when no endpoint was selected; the routing-response capture when one
was; additionally the latency capture when `AppRequestFinishedAt` is not the
zero time. -/
def reporterResponseEvents (ri : RequestInfo) (status : Nat) : List MetricEvent :=
  match ri.RouteEndpoint with
  | none => []
  | some ep =>
    if ri.AppRequestFinishedAt = 0 then [MetricEvent.routingResponse status]
    else
      [MetricEvent.routingResponse status,
       MetricEvent.routingResponseLatency ep status ri.ReceivedAt
         ((ri.AppRequestFinishedAt : Int) - (ri.ReceivedAt : Int))]

/-- `reporterHandler.ServeHTTP` (lines 30-59): panic when RequestInfo is
missing; capture the missing-Content-Length metric when the request header
lacks one; run `next` (which may mutate the RequestInfo and determines the
response status); then emit the response metrics of
`reporterResponseEvents`. Returns the events in capture order together with
the post-`next` state. -/
def reporterServeHTTP (reqInfo : Option RequestInfo) (r : Request)
    (next : RequestInfo × Request → RequestInfo × Request × Nat) :
    Except PanicErr (List MetricEvent × RequestInfo × Request × Nat) :=
  match reqInfo with
  | none => Except.error PanicErr.requestInfoErr
  | some ri =>
    let pre :=
      if headerGet r.Header "Content-Length" = "" then [MetricEvent.missingContentLength]
      else []
    let p := next (ri, r)
    Except.ok (pre ++ reporterResponseEvents p.1 p.2.2, p.1, p.2.1, p.2.2)

/-- The query part of the rewritten Opaque for a `//`-prefixed request:
`?` plus the re-encoded parsed query when the parse is non-empty, nothing
otherwise (the conditional at src/proxy/proxy.go lines 257-259). -/
def queryEncodeSuffix (rawQuery : String) : String :=
  let q := parseQueryBytes (strToBytes rawQuery)
  if 0 < q.length then "?" ++ asciiBytesToString (valuesEncodeBytes q) else ""

/- ## Concrete sample values used by witnesses and counterexamples -/

def sampleURL : URL :=
  { Scheme := "", Opaque := "", Host := "", Path := "/x", RawQuery := "", ForceQuery := false }

def sampleRequest : Request :=
  { Host := "app.example.com", RequestURI := "/x", Header := [], URL := sampleURL,
    TLS := none, Close := false }

/-- A request whose request line begins with a doubled slash. -/
def slashSlashRequest : Request :=
  { Host := "h", RequestURI := "//x",
    Header := [],
    URL := { Scheme := "", Opaque := "", Host := "", Path := "//x", RawQuery := "",
             ForceQuery := false },
    TLS := none, Close := false }

def samplePool : Pool := { poolId := 1 }

def sampleEndpoint : Endpoint := { endpointId := 1 }

def sampleReqInfo : RequestInfo :=
  { RoutePool := some samplePool, RouteEndpoint := none, ReceivedAt := 3,
    AppRequestStartedAt := 0, AppRequestFinishedAt := 0, BackendReqHeaders := [] }

/-- A downstream stage that consumes two nanoseconds and mutates nothing. -/
def tickNext : RequestInfo → Nat → RequestInfo × Nat := fun r t => (r, t + 2)

/-- A RequestInfo as left by a dispatch that selected an endpoint and
finished at time 7. -/
def dispatchedReqInfo : RequestInfo :=
  { RoutePool := some samplePool, RouteEndpoint := some sampleEndpoint, ReceivedAt := 3,
    AppRequestStartedAt := 4, AppRequestFinishedAt := 7, BackendReqHeaders := [] }

/-- A downstream stage for the reporter that selects `sampleEndpoint` and
answers 200. -/
def dispatchNext : RequestInfo × Request → RequestInfo × Request × Nat :=
  fun p => (dispatchedReqInfo, p.2, 200)

def emptyResponse : ResponseState := { headers := [], status := none, body := "" }

/-- A config with a non-zero TLS-handshake timeout. -/
def sampleConfig : Config :=
  { EndpointDialTimeout := 5 * second, EndpointKeepAliveProbeInterval := 1 * second,
    DisableKeepAlives := false, MaxIdleConns := 100, MaxIdleConnsPerHost := 2,
    TLSHandshakeTimeout := 10 * second, SendHttpStartStopClientEvent := false }

/-- A request carrying an X-CF-App-Instance header (stored, as `net/http`
does, under its canonical key). -/
def reqWithInstance : Request :=
  { sampleRequest with Header := [("X-Cf-App-Instance", ["app-guid:0"])] }

/- # Theorems -/

/- ## Header-map lemmas -/

theorem headerLookup_delCanon_self (h : Header) (ck : String) :
    headerLookup (headerDelCanon h ck) ck = none := by
  induction h with
  | nil => rfl
  | cons p t ih =>
    by_cases hp : p.1 = ck
    · simpa [headerDelCanon, hp] using ih
    · simp [headerDelCanon, hp, headerLookup, ih]

theorem headerLookup_delCanon_ne (h : Header) (ck k : String) (hne : k ≠ ck) :
    headerLookup (headerDelCanon h ck) k = headerLookup h k := by
  have hck : ck ≠ k := fun he => hne he.symm
  induction h with
  | nil => rfl
  | cons p t ih =>
    by_cases hp : p.1 = ck
    · simp [headerDelCanon, hp, headerLookup, hck, ih]
    · by_cases hk : p.1 = k
      · simp [headerDelCanon, headerLookup, hk, hne]
      · simp [headerDelCanon, hp, headerLookup, hk, ih]

theorem headerLookup_setCanon_self (h : Header) (ck v : String) :
    headerLookup (headerSetCanon h ck v) ck = some [v] := by
  unfold headerSetCanon
  induction h with
  | nil => simp [headerDelCanon, headerLookup]
  | cons p t ih =>
    by_cases hp : p.1 = ck
    · simpa [headerDelCanon, hp] using ih
    · simpa [headerDelCanon, hp, headerLookup] using ih

theorem headerLookup_setCanon_ne (h : Header) (ck v k : String) (hne : k ≠ ck) :
    headerLookup (headerSetCanon h ck v) k = headerLookup h k := by
  have hck : ck ≠ k := fun he => hne he.symm
  unfold headerSetCanon
  induction h with
  | nil => simp [headerDelCanon, headerLookup, hck]
  | cons p t ih =>
    by_cases hp : p.1 = ck
    · simpa [headerDelCanon, hp, headerLookup, hck] using ih
    · by_cases hk : p.1 = k
      · simp [headerDelCanon, headerLookup, hk, hne]
      · simpa [headerDelCanon, hp, headerLookup, hk] using ih

theorem headerGet_headerSet_self (h : Header) (key v : String) :
    headerGet (headerSet h key v) key = v := by
  unfold headerGet headerSet
  rw [headerLookup_setCanon_self]

theorem headerGet_headerSet_ne (h : Header) (key v k : String)
    (hne : canonicalMIMEHeaderKey k ≠ canonicalMIMEHeaderKey key) :
    headerGet (headerSet h key v) k = headerGet h k := by
  unfold headerGet headerSet
  rw [headerLookup_setCanon_ne _ _ _ _ hne]

/- ## Claim C1: the two transport templates -/

/-- Claim C1 counterexample: the claim says the two templates are equal on
every field other than the TLS client config — listing the TLS-handshake
timeout among those fields. But the route-service template literal omits
`TLSHandshakeTimeout`, leaving it zero, so for a config with a 10 s
handshake timeout the two templates still differ after erasing the TLS
client config from both. -/
theorem transportTemplates_counterexample :
    ({ (newProxyRoundTripperFactory sampleConfig none none).BackendTemplate with
        TLSClientConfig := none } ≠
      { (newProxyRoundTripperFactory sampleConfig none none).RouteServiceTemplate with
        TLSClientConfig := none }) ∧
    (newProxyRoundTripperFactory sampleConfig none none).BackendTemplate.TLSHandshakeTimeout
      = 10 * second ∧
    (newProxyRoundTripperFactory sampleConfig none none).RouteServiceTemplate.TLSHandshakeTimeout
      = 0 := by
  refine ⟨by decide, rfl, rfl⟩

/-- Claim C1 (amended): the backend and route-service templates built by the
factory agree on every field other than the TLS client config and the
TLS-handshake timeout (dial context, keep-alives, max idle connections, the
90 s idle timeout, disable-compression=true, expect-continue timeout); the
backend template takes the configured TLS-handshake timeout while the
route-service template leaves it at the zero value. -/
theorem transportTemplates_differ_only_in_tls_fields (cfg : Config)
    (b rs : Option TLSConfig) :
    ({ (newProxyRoundTripperFactory cfg b rs).BackendTemplate with
        TLSClientConfig := none, TLSHandshakeTimeout := 0 } =
      { (newProxyRoundTripperFactory cfg b rs).RouteServiceTemplate with
        TLSClientConfig := none, TLSHandshakeTimeout := 0 }) ∧
    (newProxyRoundTripperFactory cfg b rs).BackendTemplate.TLSClientConfig = b ∧
    (newProxyRoundTripperFactory cfg b rs).RouteServiceTemplate.TLSClientConfig = rs ∧
    (newProxyRoundTripperFactory cfg b rs).BackendTemplate.TLSHandshakeTimeout
      = cfg.TLSHandshakeTimeout ∧
    (newProxyRoundTripperFactory cfg b rs).RouteServiceTemplate.TLSHandshakeTimeout = 0 ∧
    (newProxyRoundTripperFactory cfg b rs).BackendTemplate.IdleConnTimeout = 90 * second ∧
    (newProxyRoundTripperFactory cfg b rs).RouteServiceTemplate.IdleConnTimeout = 90 * second ∧
    (newProxyRoundTripperFactory cfg b rs).BackendTemplate.DisableCompression = true ∧
    (newProxyRoundTripperFactory cfg b rs).RouteServiceTemplate.DisableCompression = true :=
  ⟨rfl, rfl, rfl, rfl, rfl, rfl, rfl, rfl, rfl⟩

/- ## Claim C3: the panic guard -/

/-- Claim C3: when the downstream handler panics with the sentinel
client-abort value (`http.ErrAbortHandler`), the guard re-raises that same
panic and touches nothing; for every panic with any other value, the guard
recovers, sets health to Degraded, writes status 503, and marks the request
connection for close (src/fakes/round_tripper.go lines 186-211). -/
theorem panicCheck_spec (hs : HealthStatus) (rw : ResponseState) (r : Request)
    (v : PanicValue) :
    (panicCheckServeHTTP hs rw r (PanicOutcome.panicWith PanicValue.errAbortHandler) =
      (GuardOutcome.repanicked PanicValue.errAbortHandler, hs, rw, r)) ∧
    (v ≠ PanicValue.errAbortHandler →
      panicCheckServeHTTP hs rw r (PanicOutcome.panicWith v) =
        (GuardOutcome.recovered, HealthStatus.degraded,
          { rw with status := some 503 }, { r with Close := true })) := by
  constructor
  · rfl
  · intro hv
    cases v with
    | errAbortHandler => exact absurd rfl hv
    | otherValue d => rfl

/-- Witness for C3 at a concrete non-sentinel panic value: the guard
degrades health, answers 503 and marks the connection for close. -/
theorem panicCheck_spec_witness :
    panicCheckServeHTTP HealthStatus.healthy emptyResponse sampleRequest
        (PanicOutcome.panicWith (PanicValue.otherValue "nil pointer dereference")) =
      (GuardOutcome.recovered, HealthStatus.degraded,
        { emptyResponse with status := some 503 },
        { sampleRequest with Close := true }) :=
  (panicCheck_spec HealthStatus.healthy emptyResponse sampleRequest
    (PanicValue.otherValue "nil pointer dereference")).2 (by decide)

/- ## Claim C5: the SkipSanitize predicate -/

/-- Claim C5: the skip-sanitization predicate returns true for a request if
and only if the request is route-service traffic and the connection is TLS
(`req.TLS` non-nil). -/
theorem SkipSanitize_iff (isRouteServiceTraffic : Request → Bool) (req : Request) :
    SkipSanitize isRouteServiceTraffic req = true ↔
      (isRouteServiceTraffic req = true ∧ req.TLS ≠ none) := by
  unfold SkipSanitize
  rw [Bool.and_eq_true, Option.isSome_iff_ne_none]

/- ## Claim C6: healthcheck status and body -/

/-- Claim C6 counterexample: in the healthy branch the handler writes the
body "ok\n" (src/handlers/healthcheck.go line 34), not "ok" as the claim
states. -/
theorem healthcheck_body_counterexample :
    (healthcheckServeHTTP HealthStatus.healthy emptyResponse sampleRequest).1.status
      = some 200 ∧
    (healthcheckServeHTTP HealthStatus.healthy emptyResponse sampleRequest).1.body
      = "ok\n" ∧
    ("ok\n" : String) ≠ "ok" := by
  refine ⟨rfl, rfl, by decide⟩

/-- Claim C6 (amended): the health-check handler responds 200 with body
"ok\n" (a trailing newline is written) when the health state equals Healthy,
and responds 503 with connection close (and no body) when the health state
is anything else. -/
theorem healthcheck_status_spec (hs : HealthStatus) (rw : ResponseState) (r : Request) :
    (hs = HealthStatus.healthy →
      (healthcheckServeHTTP hs rw r).1.status = some 200 ∧
      (healthcheckServeHTTP hs rw r).1.body = rw.body ++ "ok\n" ∧
      (healthcheckServeHTTP hs rw r).2.Close = true) ∧
    (hs ≠ HealthStatus.healthy →
      (healthcheckServeHTTP hs rw r).1.status = some 503 ∧
      (healthcheckServeHTTP hs rw r).1.body = rw.body ∧
      (healthcheckServeHTTP hs rw r).2.Close = true) := by
  cases hs
  · exact ⟨fun _ => ⟨rfl, rfl, rfl⟩, fun hne => absurd rfl hne⟩
  · exact ⟨(fun he => nomatch he), fun _ => ⟨rfl, rfl, rfl⟩⟩

/-- Witness for C6 at the two concrete health states. -/
theorem healthcheck_status_spec_witness :
    (healthcheckServeHTTP HealthStatus.healthy emptyResponse sampleRequest).1.status
      = some 200 ∧
    (healthcheckServeHTTP HealthStatus.degraded emptyResponse sampleRequest).1.status
      = some 503 :=
  ⟨((healthcheck_status_spec HealthStatus.healthy emptyResponse sampleRequest).1 rfl).1,
   ((healthcheck_status_spec HealthStatus.degraded emptyResponse sampleRequest).2
     (by decide)).1⟩

/- ## Claim C10: healthcheck cache headers and connection close -/

/-- Claim C10: every response of the health-check handler — healthy and
unhealthy branch alike — carries Cache-Control: private, max-age=0 and
Expires: 0, and marks the request connection for close; in particular the
healthy 200 response also closes the connection. -/
theorem healthcheck_headers_and_close (hs : HealthStatus) (rw : ResponseState) (r : Request) :
    headerGet (healthcheckServeHTTP hs rw r).1.headers "Cache-Control"
      = "private, max-age=0" ∧
    headerGet (healthcheckServeHTTP hs rw r).1.headers "Expires" = "0" ∧
    (healthcheckServeHTTP hs rw r).2.Close = true ∧
    (hs = HealthStatus.healthy →
      (healthcheckServeHTTP hs rw r).1.status = some 200 ∧
      (healthcheckServeHTTP hs rw r).2.Close = true) := by
  have h1 : ∀ H : Header,
      headerGet (headerSet (headerSet H "Cache-Control" "private, max-age=0") "Expires" "0")
        "Cache-Control" = "private, max-age=0" := by
    intro H
    rw [headerGet_headerSet_ne _ _ _ _ (by decide), headerGet_headerSet_self]
  have h2 : ∀ H : Header,
      headerGet (headerSet (headerSet H "Cache-Control" "private, max-age=0") "Expires" "0")
        "Expires" = "0" := fun H => headerGet_headerSet_self _ _ _
  cases hs
  · exact ⟨h1 rw.headers, h2 rw.headers, rfl, fun _ => ⟨rfl, rfl⟩⟩
  · exact ⟨h1 rw.headers, h2 rw.headers, rfl, (fun he => nomatch he)⟩

/-- Witness for C10 at the healthy state: headers present, 200, close. -/
theorem healthcheck_headers_and_close_witness :
    headerGet (healthcheckServeHTTP HealthStatus.healthy emptyResponse sampleRequest).1.headers
      "Cache-Control" = "private, max-age=0" ∧
    (healthcheckServeHTTP HealthStatus.healthy emptyResponse sampleRequest).2.Close = true ∧
    (healthcheckServeHTTP HealthStatus.healthy emptyResponse sampleRequest).1.status
      = some 200 :=
  ⟨(healthcheck_headers_and_close HealthStatus.healthy emptyResponse sampleRequest).1,
   (healthcheck_headers_and_close HealthStatus.healthy emptyResponse sampleRequest).2.2.1,
   ((healthcheck_headers_and_close HealthStatus.healthy emptyResponse sampleRequest).2.2.2
     rfl).1⟩

/- ## Claim C7: X-Request-Start stamping -/

/-- Claim C7: before backend dispatch, X-Request-Start is set to the current
unix time in milliseconds if and only if it is absent; an already-present
value is never overwritten (the request is returned unchanged), and no other
header key is modified by this step. -/
theorem setRequestXRequestStart_spec (now : Int) (r : Request) :
    (headerLookup r.Header (canonicalMIMEHeaderKey "X-Request-Start") = none →
      headerGet (setRequestXRequestStart now r).Header "X-Request-Start"
        = toString (Int.tdiv now 1000000) ∧
      ∀ k, k ≠ canonicalMIMEHeaderKey "X-Request-Start" →
        headerLookup (setRequestXRequestStart now r).Header k = headerLookup r.Header k) ∧
    ((headerLookup r.Header (canonicalMIMEHeaderKey "X-Request-Start")).isSome →
      setRequestXRequestStart now r = r) := by
  constructor
  · intro habs
    simp only [setRequestXRequestStart, habs]
    exact ⟨headerGet_headerSet_self _ _ _,
      fun k hk => headerLookup_setCanon_ne _ _ _ _ hk⟩
  · intro hsome
    obtain ⟨vs, hvs⟩ := Option.isSome_iff_exists.mp hsome
    simp only [setRequestXRequestStart, hvs]

/-- Witness for C7: on a header without the key the millisecond clock value
is stamped; on a header that already carries the key nothing changes. -/
theorem setRequestXRequestStart_spec_witness :
    headerGet (setRequestXRequestStart 5000000 sampleRequest).Header "X-Request-Start"
      = "5" ∧
    setRequestXRequestStart 0
        { sampleRequest with Header := [("X-Request-Start", ["1"])] }
      = { sampleRequest with Header := [("X-Request-Start", ["1"])] } := by
  constructor
  · exact (((setRequestXRequestStart_spec 5000000 sampleRequest).1 (by decide)).1).trans
      (by decide)
  · exact (setRequestXRequestStart_spec 0 _).2 (by decide)

/- ## Claim C8: X-CF-App-Instance stripped by the director -/

/-- Claim C8: for every request, the X-CF-App-Instance header has been
removed from the outgoing request once the proxy director has run. -/
theorem setupProxyRequest_strips_cfAppInstance (now : Int) (ri : RequestInfo) (r : Request)
    (out : RequestInfo × Request)
    (h : setupProxyRequest now (some ri) r = Except.ok out) :
    headerLookup out.2.Header (canonicalMIMEHeaderKey CfAppInstance) = none ∧
    headerGet out.2.Header CfAppInstance = "" := by
  have hout : out = setupProxyRequestCore now ri r := by
    simpa [setupProxyRequest] using h.symm
  subst hout
  have hl : headerLookup (setupProxyRequestCore now ri r).2.Header
      (canonicalMIMEHeaderKey CfAppInstance) = none :=
    headerLookup_delCanon_self _ _
  refine ⟨hl, ?_⟩
  unfold headerGet
  rw [hl]

/-- Witness for C8: a request that arrives with an X-CF-App-Instance header
loses it in the director. -/
theorem setupProxyRequest_strips_cfAppInstance_witness :
    headerGet reqWithInstance.Header CfAppInstance = "app-guid:0" ∧
    headerLookup (setupProxyRequestCore 0 sampleReqInfo reqWithInstance).2.Header
      (canonicalMIMEHeaderKey CfAppInstance) = none :=
  ⟨by decide,
   (setupProxyRequest_strips_cfAppInstance 0 sampleReqInfo reqWithInstance
     (setupProxyRequestCore 0 sampleReqInfo reqWithInstance) rfl).1⟩

/- ## Claim C4: request timestamps in proxy.ServeHTTP -/

/-- Claim C4: for every request that passes through the proxy's final
pipeline stage and returns (RequestInfo attached and RoutePool non-nil, or
the stage panics), both AppRequestStartedAt and AppRequestFinishedAt are
stamped and AppRequestStartedAt ≤ AppRequestFinishedAt holds afterwards.
The environment hypotheses say the clock is monotone across the downstream
call and that no downstream stage rewrites AppRequestStartedAt — which none
of the stages mounted after this one does. -/
theorem proxyServeHTTP_timestamps (ri : RequestInfo) (t0 : Nat)
    (next : RequestInfo → Nat → RequestInfo × Nat) (out : RequestInfo × Nat)
    (hmono : ∀ r t, t ≤ (next r t).2)
    (hkeep : ∀ r t, ((next r t).1).AppRequestStartedAt = r.AppRequestStartedAt)
    (h : proxyServeHTTP (some ri) t0 next = Except.ok out) :
    out.1.AppRequestStartedAt = t0 ∧
    out.1.AppRequestFinishedAt = out.2 ∧
    out.1.AppRequestStartedAt ≤ out.1.AppRequestFinishedAt := by
  cases hp : ri.RoutePool with
  | none => simp [proxyServeHTTP, hp] at h
  | some pool =>
    simp only [proxyServeHTTP, hp, Except.ok.injEq] at h
    subst h
    exact ⟨hkeep _ t0, rfl, (hkeep _ t0).trans_le (hmono _ t0)⟩

/-- Witness for C4 with a concrete downstream stage that advances the clock
by two nanoseconds. -/
theorem proxyServeHTTP_timestamps_witness :
    proxyServeHTTP (some sampleReqInfo) 5 tickNext = Except.ok
      ({ sampleReqInfo with AppRequestStartedAt := 5, AppRequestFinishedAt := 7 }, 7) ∧
    ({ sampleReqInfo with AppRequestStartedAt := 5, AppRequestFinishedAt := 7 } :
        RequestInfo).AppRequestStartedAt ≤
      ({ sampleReqInfo with AppRequestStartedAt := 5, AppRequestFinishedAt := 7 } :
        RequestInfo).AppRequestFinishedAt := by
  have h : proxyServeHTTP (some sampleReqInfo) 5 tickNext = Except.ok
      ({ sampleReqInfo with AppRequestStartedAt := 5, AppRequestFinishedAt := 7 }, 7) := rfl
  exact ⟨h, (proxyServeHTTP_timestamps sampleReqInfo 5 tickNext _
    (fun r t => Nat.le_add_right t 2) (fun r t => rfl) h).2.2⟩

/- ## Claim C9: reporter response metrics -/

/-- Claim C9: the reporter captures a routing-response metric exactly when a
backend endpoint was selected (RouteEndpoint non-nil after `next`), captures
a response-latency metric exactly when in addition AppRequestFinishedAt is a
non-zero time, and emits no response metric at all when no endpoint was
selected. -/
theorem reporter_response_metrics (ri : RequestInfo) (r : Request)
    (next : RequestInfo × Request → RequestInfo × Request × Nat)
    (out : List MetricEvent × RequestInfo × Request × Nat)
    (h : reporterServeHTTP (some ri) r next = Except.ok out) :
    (out.1.any isRoutingResponseEvent = true ↔ out.2.1.RouteEndpoint ≠ none) ∧
    (out.1.any isLatencyEvent = true ↔
      (out.2.1.RouteEndpoint ≠ none ∧ out.2.1.AppRequestFinishedAt ≠ 0)) ∧
    (out.2.1.RouteEndpoint = none →
      out.1.any isRoutingResponseEvent = false ∧ out.1.any isLatencyEvent = false) := by
  simp only [reporterServeHTTP, Except.ok.injEq] at h
  subst h
  by_cases hc : headerGet r.Header "Content-Length" = "" <;>
    rcases hep : (next (ri, r)).1.RouteEndpoint with _ | ep <;>
      by_cases hfin : (next (ri, r)).1.AppRequestFinishedAt = 0 <;>
        simp [hc, reporterResponseEvents, hep, hfin,
          isRoutingResponseEvent, isLatencyEvent]

/-- Witness for C9: a dispatch that selected an endpoint and finished at a
non-zero time yields both response metrics. -/
theorem reporter_response_metrics_witness :
    reporterServeHTTP (some sampleReqInfo) sampleRequest dispatchNext = Except.ok
      ([MetricEvent.missingContentLength, MetricEvent.routingResponse 200,
        MetricEvent.routingResponseLatency sampleEndpoint 200 3 4],
       dispatchedReqInfo, sampleRequest, 200) ∧
    ([MetricEvent.missingContentLength, MetricEvent.routingResponse 200,
        MetricEvent.routingResponseLatency sampleEndpoint 200 3 4].any isLatencyEvent
      = true) := by
  have h : reporterServeHTTP (some sampleReqInfo) sampleRequest dispatchNext = Except.ok
      ([MetricEvent.missingContentLength, MetricEvent.routingResponse 200,
        MetricEvent.routingResponseLatency sampleEndpoint 200 3 4],
       dispatchedReqInfo, sampleRequest, 200) := rfl
  exact ⟨h, (reporter_response_metrics sampleReqInfo sampleRequest dispatchNext _ h).2.1.mpr
    ⟨by decide, by decide⟩⟩

/- ## Claim C2: the director's URL rewrite -/

/-- The director leaves the URL untouched when stamping X-Request-Start. -/
theorem setRequestXRequestStart_URL (now : Int) (r : Request) :
    (setRequestXRequestStart now r).URL = r.URL := by
  unfold setRequestXRequestStart
  split <;> rfl

/-- What `setupProxyRequestCore` does to the URL: scheme becomes "http",
RawQuery is cleared; a non-`//` request line is copied verbatim into
Opaque; a `//`-prefixed request line turns Opaque into `//host` plus the
segment-wise re-escaped path plus the re-encoded query. -/
theorem setupProxyRequestCore_url_spec (now : Int) (ri : RequestInfo) (r : Request) :
    (setupProxyRequestCore now ri r).2.URL.Scheme = "http" ∧
    (setupProxyRequestCore now ri r).2.URL.RawQuery = "" ∧
    (startsWithSlashSlash r.RequestURI = false →
      (setupProxyRequestCore now ri r).2.URL.Opaque = r.RequestURI) ∧
    (startsWithSlashSlash r.RequestURI = true →
      (setupProxyRequestCore now ri r).2.URL.Opaque =
        "//" ++ r.Host ++ escapePathAndPreserveSlashes r.URL.Path ++
          queryEncodeSuffix r.URL.RawQuery) := by
  by_cases hss : startsWithSlashSlash r.RequestURI = true
  · by_cases hq : 0 < (parseQueryBytes (strToBytes r.URL.RawQuery)).length
    · refine ⟨?_, ?_, ?_, ?_⟩ <;>
        simp [setupProxyRequestCore, setRequestXRequestStart_URL, hss, hq,
          queryEncodeSuffix, String.append_assoc]
    · refine ⟨?_, ?_, ?_, ?_⟩ <;>
        simp [setupProxyRequestCore, setRequestXRequestStart_URL, hss, hq,
          queryEncodeSuffix, String.append_assoc]
  · rw [Bool.not_eq_true] at hss
    refine ⟨?_, ?_, ?_, ?_⟩ <;>
      simp [setupProxyRequestCore, setRequestXRequestStart_URL, hss]

/-- Claim C2 (amended): for every request, the director rewrites the
outgoing URL to scheme "http" and clears RawQuery; when the RequestURI does
not begin with "//", Opaque is the RequestURI itself, preserving the
original request line byte-for-byte; when it does begin with "//", Opaque
is instead "//" + Host + the segment-wise re-escaped path (plus "?" and the
re-encoded query when the parsed query is non-empty), which keeps the
leading double slash un-collapsed but is not the original bytes. -/
theorem setupProxyRequest_url_rewrite (now : Int) (ri : RequestInfo) (r : Request)
    (out : RequestInfo × Request)
    (h : setupProxyRequest now (some ri) r = Except.ok out) :
    out.2.URL.Scheme = "http" ∧
    out.2.URL.RawQuery = "" ∧
    (startsWithSlashSlash r.RequestURI = false → out.2.URL.Opaque = r.RequestURI) ∧
    (startsWithSlashSlash r.RequestURI = true →
      out.2.URL.Opaque = "//" ++ r.Host ++ escapePathAndPreserveSlashes r.URL.Path ++
        queryEncodeSuffix r.URL.RawQuery) := by
  have hout : out = setupProxyRequestCore now ri r := by
    simpa [setupProxyRequest] using h.symm
  subst hout
  exact setupProxyRequestCore_url_spec now ri r

/-- Claim C2 counterexample: on the request with request line `//x` and
host `h`, the director sets Opaque to `//h//x`, which differs from the
original request line `//x` — the `//` case is not preserved byte-for-byte
(the host is spliced in and the path re-escaped). -/
theorem setupProxyRequest_opaque_counterexample :
    (setupProxyRequest 0 (some sampleReqInfo) slashSlashRequest).toOption.map
        (fun out => out.2.URL.Opaque) = some "//h//x" ∧
    slashSlashRequest.RequestURI = "//x" ∧
    ("//h//x" : String) ≠ "//x" := by
  refine ⟨by decide, rfl, by decide⟩

/-- Witness for C2: the non-`//` request line `/x` is copied verbatim into
Opaque; the `//`-prefixed one is rewritten to `//h//x`. -/
theorem setupProxyRequest_url_rewrite_witness :
    (setupProxyRequestCore 0 sampleReqInfo sampleRequest).2.URL.Opaque = "/x" ∧
    (setupProxyRequestCore 0 sampleReqInfo slashSlashRequest).2.URL.Opaque = "//h//x" := by
  have h1 := setupProxyRequest_url_rewrite 0 sampleReqInfo sampleRequest _ rfl
  have h2 := setupProxyRequest_url_rewrite 0 sampleReqInfo slashSlashRequest _ rfl
  exact ⟨(h1.2.2.1 (by decide)).trans rfl,
    (h2.2.2.2 (by decide)).trans (by decide)⟩

end Gorouter
